import Mathlib

/-!
Shallow embedding of `src/venv_py/env_manager.py` (class `EnvManager`) and
proofs about its operations: `flush`, `run`, `result`, `check_consistency`,
and the context-manager protocol.

Python dictionaries are embedded as association lists with unique keys,
JSON values as an inductive `JVal`, raised exceptions as explicit values of
an `Exc` type, and the external collaborators (the `venv` builder,
`subprocess.run`, the filesystem, `importlib.metadata`, `pkg_resources`)
as oracle parameters that supply the outcome of each external call.
-/

namespace VenvPy

/-! ## Python dictionaries as association lists -/

/-- Lookup in a Python dict modelled as an association list
(first matching key wins; keys are unique in any list that models a dict). -/
def dictGet? {α : Type} : List (String × α) → String → Option α
  | [], _ => none
  | p :: rest, k => if p.1 = k then some p.2 else dictGet? rest k

/-- `d[k] = v` in Python: replace the value at an existing key in place,
otherwise append the new binding at the end (insertion order semantics). -/
def dictSet {α : Type} : List (String × α) → String → α → List (String × α)
  | [], k, v => [(k, v)]
  | p :: rest, k, v => if p.1 = k then (k, v) :: rest else p :: dictSet rest k v

/-- `d.update(u)` in Python: set every binding of `u` into `d`, in order. -/
def dictUpdate {α : Type} (d u : List (String × α)) : List (String × α) :=
  u.foldl (fun acc p => dictSet acc p.1 p.2) d

theorem dictGet?_dictSet_self {α : Type} (d : List (String × α)) (k : String) (v : α) :
    dictGet? (dictSet d k v) k = some v := by
  induction d with
  | nil => simp [dictSet, dictGet?]
  | cons p rest ih =>
      by_cases h : p.1 = k
      · simp [dictSet, dictGet?, h]
      · simp [dictSet, dictGet?, h, ih]

theorem dictGet?_dictSet_ne {α : Type} (d : List (String × α)) (k k' : String) (v : α)
    (h : k' ≠ k) : dictGet? (dictSet d k v) k' = dictGet? d k' := by
  have hkk' : ¬ (k = k') := fun hh => h hh.symm
  induction d with
  | nil => simp [dictSet, dictGet?, hkk']
  | cons p rest ih =>
      by_cases hp : p.1 = k
      · have hpk' : ¬ (p.1 = k') := by rw [hp]; exact hkk'
        simp [dictSet, dictGet?, hp, hpk', hkk']
      · by_cases hp' : p.1 = k'
        · simp [dictSet, dictGet?, hp, hp', h]
        · simp [dictSet, dictGet?, hp, hp', ih]

theorem dictGet?_eq_none_of_not_mem_keys {α : Type} (d : List (String × α)) (k : String)
    (h : k ∉ d.map Prod.fst) : dictGet? d k = none := by
  induction d with
  | nil => simp [dictGet?]
  | cons p rest ih =>
      simp only [List.map_cons, List.mem_cons] at h
      push_neg at h
      have h1 : ¬ (p.1 = k) := fun hh => h.1 hh.symm
      simp [dictGet?, h1, ih h.2]

/-- Lookup after a Python `update`: a key present in the update takes the
updated value, any other key keeps its old value (for updates whose keys
are unique, which is the case for any list modelling a Python dict). -/
theorem dictGet?_dictUpdate {α : Type} (u : List (String × α)) :
    ∀ (d : List (String × α)) (k : String), (u.map Prod.fst).Nodup →
      dictGet? (dictUpdate d u) k =
        (match dictGet? u k with
         | some v => some v
         | none => dictGet? d k) := by
  induction u with
  | nil => intro d k _; simp [dictUpdate, dictGet?]
  | cons p rest ih =>
      intro d k hnd
      simp only [List.map_cons, List.nodup_cons] at hnd
      have step : dictUpdate d (p :: rest) = dictUpdate (dictSet d p.1 p.2) rest := by
        simp [dictUpdate, List.foldl_cons]
      rw [step, ih (dictSet d p.1 p.2) k hnd.2]
      by_cases h : p.1 = k
      · subst h
        have hrest : dictGet? rest p.1 = none :=
          dictGet?_eq_none_of_not_mem_keys rest p.1 hnd.1
        simp [dictGet?, hrest, dictGet?_dictSet_self]
      · simp [dictGet?, h, dictGet?_dictSet_ne d p.1 k p.2 (fun hh => h hh.symm)]

/-! ## Exceptions

`PyErr` models the Python exceptions that arise from external collaborators
(the `venv` builder, the OS, `subprocess`); `Exc` models the exceptions the
module itself raises or lets propagate.  `EnvError` and `CmdExecError` are
the two classes declared at the top of `env_manager.py`; `raise X from e`
is modelled by storing the cause `e` inside the raised value. -/

inductive PyErr where
  | calledProcessError (cmd : String) (returncode : Int) (stderr : Option String)
  | fileNotFoundError (msg : String)
  | osError (msg : String)
  | otherError (msg : String)
deriving DecidableEq, Repr

/-- The message `str(e)` of a `subprocess.CalledProcessError` for a process
that exited with a nonzero status. -/
def cpeMsg (cmd : String) (returncode : Int) : String :=
  "Command \x27" ++ cmd ++ "\x27 returned non-zero exit status " ++ toString returncode ++ "."

/-- `str(e)` for the modelled external exceptions (used when the module
formats an exception into a message with an f-string). -/
def pyErrMsg : PyErr → String
  | .calledProcessError cmd rc _ => cpeMsg cmd rc
  | .fileNotFoundError m => m
  | .osError m => m
  | .otherError m => m

inductive Exc where
  /-- `EnvError` (the spec's `EnvironmentError`), optionally `raise ... from e`. -/
  | envError (msg : String) (cause : Option PyErr)
  /-- `CmdExecError` (the spec's `CommandExecutionError`), raised
  `from e` where `e` is the `subprocess.CalledProcessError`. -/
  | cmdExecError (msg : String) (cause : PyErr)
  | runtimeError (msg : String)
  | typeErr (msg : String)
  | valueErr (msg : String)
  /-- An external exception propagating unwrapped. -/
  | pyErr (e : PyErr)
deriving DecidableEq, Repr

def isEnvErr : Option Exc → Bool
  | some (.envError _ _) => true
  | _ => false

def isCmdExecErr : Option Exc → Bool
  | some (.cmdExecError _ _) => true
  | _ => false

/-! ## flush (`env_manager.py` lines 83-105)

`_create` calls the external `venv.EnvBuilder(clear=clear).create(path)`;
its outcome is supplied as an oracle pair `(raised?, existsAfter)`:
`raised? = none` means the builder returned normally, `some e` that it
raised `e`; `existsAfter` is whether `os.path.exists(venv_path)` holds
after the attempt.  `attempt1` is the outcome of `_create(clear=clear)`
and `attempt2` the outcome of the recovery call `_create(clear=True)`
(consulted only when the first attempt raised, exactly as in the source). -/

def flush (clear : Bool) (attempt1 attempt2 : Option PyErr × Bool) : Option Exc × Bool :=
  match attempt1 with
  | (none, ex1) => (none, ex1)          -- `return self`
  | (some e, _) =>
      match attempt2 with
      | (none, ex2) =>
          -- the second `_create` returned: execution reaches the
          -- unconditional `raise EnvError(...) from e`
          (some (.envError ("Unable to recreate environmet: " ++ pyErrMsg e) (some e)), ex2)
      | (some e2, ex2) =>
          -- the second `_create` raised: that exception propagates before
          -- the `raise EnvError` line is reached
          (some (.pyErr e2), ex2)

/-! ## Context-manager protocol (`env_manager.py` lines 55-61, 116-122)

`remove` is modelled on the existence flag: `shutil.rmtree` deletes the
tree when present, otherwise nothing happens.  `__exit__` is declared as
`def __exit__(self):`, i.e. with exactly one positional parameter, while
the `with` statement always calls it with four positional arguments
(`self`, `exc_type`, `exc_value`, `traceback`); Python raises a
`TypeError` before the body can run when the arity does not match. -/

def remove (existsNow : Bool) : Bool :=
  if existsNow then false else existsNow

/-- Number of positional parameters of `def __exit__(self):`. -/
def exit_positional_params : Nat := 1

/-- Number of positional arguments the `with` statement protocol supplies
to `__exit__` (self, exc_type, exc_value, traceback). -/
def with_protocol_exit_args : Nat := 4

structure ExitOutcome where
  existsAfter : Bool
  raised : Option Exc
deriving DecidableEq, Repr

/-- Calling `__exit__` with `argsGiven` positional arguments: when the
arity matches, the body `self.remove()` runs; otherwise Python raises a
`TypeError` and the body never runs. -/
def call_exit_dunder (argsGiven : Nat) (existsNow : Bool) : ExitOutcome :=
  if argsGiven = exit_positional_params then
    ⟨remove existsNow, none⟩
  else
    ⟨existsNow,
     some (.typeErr ("__exit__() takes " ++ toString exit_positional_params ++
       " positional argument but " ++ toString argsGiven ++ " were given"))⟩

/-- Exiting a `with EnvManager(...)` block. -/
def with_block_exit (existsNow : Bool) : ExitOutcome :=
  call_exit_dunder with_protocol_exit_args existsNow

/-! ## JSON values and truthiness -/

inductive JVal where
  | jnull
  | jbool (b : Bool)
  | jnum (n : Int)
  | jstr (s : String)
  | jarr (xs : List JVal)
  | jobj (fields : List (String × JVal))
deriving Repr

/-- Python truthiness of a JSON value (`if required:`, `if required_version:`,
`if env:`). -/
def jTruthy : JVal → Bool
  | .jnull => false
  | .jbool b => b
  | .jnum n => !(n == 0)
  | .jstr s => !s.isEmpty
  | .jarr xs => !xs.isEmpty
  | .jobj fs => !fs.isEmpty

/-- One element (at position `i`) of a non-mapping iterable passed to
`dict.update`: it must be an iterable of length two, giving a key/value
pair.  A two-element array gives its components; a two-character string
gives its two characters; a two-key mapping, iterated, gives its two keys.
`.ok none` means the element contributes a binding under a non-string
(numeric, boolean or null) key — such keys cannot collide with string
keys, and `check_consistency` only ever reads the string keys `"files"`
and `"packages"` back, so the embedding keeps the dict's string-keyed
part.  An unhashable key (list or dict) or a wrong-length element
raises. -/
def updateElem (i : Nat) : JVal → Except Exc (Option (String × JVal))
  | .jarr [.jstr k, v] => .ok (some (k, v))
  | .jarr [.jnum _, _] => .ok none
  | .jarr [.jbool _, _] => .ok none
  | .jarr [.jnull, _] => .ok none
  | .jarr [.jarr _, _] => .error (.typeErr "unhashable type: \x27list\x27")
  | .jarr [.jobj _, _] => .error (.typeErr "unhashable type: \x27dict\x27")
  | .jarr xs =>
      .error (.valueErr ("dictionary update sequence element #" ++ toString i ++
        " has length " ++ toString xs.length ++ "; 2 is required"))
  | .jstr s =>
      match s.data with
      | [c1, c2] => .ok (some (String.mk [c1], .jstr (String.mk [c2])))
      | cs =>
          .error (.valueErr ("dictionary update sequence element #" ++ toString i ++
            " has length " ++ toString cs.length ++ "; 2 is required"))
  | .jobj [(k1, _), (k2, _)] => .ok (some (k1, .jstr k2))
  | .jobj fs =>
      .error (.valueErr ("dictionary update sequence element #" ++ toString i ++
        " has length " ++ toString fs.length ++ "; 2 is required"))
  | .jnum _ =>
      .error (.typeErr ("cannot convert dictionary update sequence element #" ++
        toString i ++ " to a sequence"))
  | .jbool _ =>
      .error (.typeErr ("cannot convert dictionary update sequence element #" ++
        toString i ++ " to a sequence"))
  | .jnull =>
      .error (.typeErr ("cannot convert dictionary update sequence element #" ++
        toString i ++ " to a sequence"))

/-- Apply the elements of an update sequence in order, raising at the
first bad element. -/
def applyUpdateSeq (d : List (String × JVal)) (i : Nat) :
    List JVal → Except Exc (List (String × JVal))
  | [] => .ok d
  | e :: rest =>
      match updateElem i e with
      | .error err => .error err
      | .ok none => applyUpdateSeq d (i + 1) rest
      | .ok (some (k, v)) => applyUpdateSeq (dictSet d k v) (i + 1) rest

/-- `config.update(x)` where `x` is an arbitrary value produced by
`json.load`: a mapping merges; an iterable of length-two elements merges
element by element (so the documents `[]`, `["ab"]` and `[[1, 2]]` all
succeed); the empty string iterates over nothing and is a no-op; a
nonempty string iterates over its one-character elements and raises
`ValueError`; a number, boolean or null is not iterable and raises
`TypeError`.  The raised exceptions escape the
`except json.JSONDecodeError` clause in the source. -/
def pyDictUpdate (d : List (String × JVal)) : JVal → Except Exc (List (String × JVal))
  | .jobj fields => .ok (dictUpdate d fields)
  | .jarr xs => applyUpdateSeq d 0 xs
  | .jstr s =>
      if s.isEmpty then .ok d
      else .error (.valueErr "dictionary update sequence element #0 has length 1; 2 is required")
  | .jnum _ => .error (.typeErr "\x27int\x27 object is not iterable")
  | .jbool _ => .error (.typeErr "\x27bool\x27 object is not iterable")
  | .jnull => .error (.typeErr "\x27NoneType\x27 object is not iterable")

/-! ## check_consistency (`env_manager.py` lines 220-342) -/

/-- `os.path.join`, modelled with the posix separator. -/
def pathJoin (a b : String) : String := a ++ "/" ++ b

def default_config (isWin32 : Bool) : List (String × JVal) :=
  [("files", .jobj [
      ("Scripts/activate.bat", .jbool isWin32),
      ("Scripts/activate", .jbool (!isWin32)),
      ("Scripts/python.exe", .jbool isWin32),
      ("bin/activate", .jbool (!isWin32)),
      ("bin/python", .jbool (!isWin32))]),
   ("packages", .jobj [("pip", .jnull)])]

/-- Outcome of `open(config_json, "r")` followed by `json.load(f)`:
the open/read/parse either raises an exception that is *not* a
`json.JSONDecodeError` (e.g. `PermissionError` from `open`,
`UnicodeDecodeError` from reading a non-UTF-8 file) — such exceptions
escape the `except json.JSONDecodeError` clause — or raises a
`json.JSONDecodeError` (caught, `return False`), or produces a parsed
JSON value. -/
inductive FileReadOutcome where
  | readRaised (e : PyErr)
  | decodeError (msg : String)
  | parsed (v : JVal)

/-- The state of the host and environment observed by `check_consistency`:
platform, filesystem, the outcome of opening/decoding a configuration
file, the Python version gate, the two probed capabilities, the
installed-package enumeration (`none` =
`importlib_metadata.distributions()` raised), the outcome of
`self._pip_check()`, and the external requirement oracle `reqCheck`:
`reqCheck name constraint installedVersion` is the outcome of
`pkg_resources.Requirement.parse(f"{name}{constraint}")` followed by
`req.specifier.contains(installedVersion)` — `some b` when that returns
the boolean `b`, `none` when it raises (`RequirementParseError` or any
other exception; the source converts either to `return False`). -/
structure CheckEnv where
  isWin32 : Bool
  venvPath : String
  fileExists : String → Bool
  fileRead : String → FileReadOutcome
  pythonGe38 : Bool
  metadataAvailable : Bool
  pkgResourcesOk : Bool
  installed? : Option (List (String × String))
  pipCheckPasses : Bool
  reqCheck : String → JVal → String → Option Bool

/-- The `config_json` argument: `None`, a path, a dict, or a value of any
other type (only its truthiness matters for `if config_json:`). -/
inductive ConfigArg where
  | noneArg
  | strArg (path : String)
  | dictArg (d : List (String × JVal))
  | otherArg (truthy : Bool)

/-- Lines 245-265: take the default config and merge the supplied source
over it.  `.ok none` models an early `return False`; `.error e` models an
exception escaping to the caller — either an open/read/decode exception
other than `json.JSONDecodeError` (the only class the `except` clause
catches), or an exception from `config.update` on a parsed non-mapping
document. -/
def configMergeResult (E : CheckEnv) (config : List (String × JVal)) :
    ConfigArg → Except Exc (Option (List (String × JVal)))
  | .noneArg => .ok (some config)
  | .strArg p =>
      if p.isEmpty then .ok (some config)       -- `if config_json:` is false for ""
      else if E.fileExists p then
        match E.fileRead p with
        | .readRaised e => .error (.pyErr e)    -- open/read raised, not caught
        | .decodeError _ => .ok none            -- JSONDecodeError → return False
        | .parsed v =>
            match pyDictUpdate config v with
            | .ok c => .ok (some c)
            | .error e => .error e              -- config.update raised, not caught
      else .ok none                             -- missing file → return False
  | .dictArg d =>
      if d.isEmpty then .ok (some config)       -- `if config_json:` is false for {}
      else .ok (some (dictUpdate config d))
  | .otherArg truthy =>
      if truthy then .ok none                   -- invalid type → return False
      else .ok (some config)

/-- Lines 299-329: the per-package body of the loop over
`config["packages"].items()`.  The external
`pkg_resources.Requirement.parse(f"{package_name}{required_version}")` /
`req.specifier.contains(installed_version)` pair is consulted through the
`reqCheck` oracle: `none` means it raised (a `RequirementParseError` or
any other exception — both `except` clauses turn it into `return False`),
`some b` the containment verdict. -/
def pkgEntryOk (pkgResourcesOk : Bool) (reqCheck : String → JVal → String → Option Bool)
    (installed : List (String × String)) (name : String) (requiredVersion : JVal) : Bool :=
  match dictGet? installed name with
  | none => false                               -- missing package → return False
  | some installedVersion =>
      if jTruthy requiredVersion then
        if pkgResourcesOk then
          match reqCheck name requiredVersion installedVersion with
          | none => false                       -- parse/containment raised → return False
          | some contained => contained         -- unsatisfied constraint → return False
        else false                              -- pkg_resources is None → exception → False
      else true                                 -- falsy constraint: any version acceptable

def checkPackages (pkgResourcesOk : Bool) (reqCheck : String → JVal → String → Option Bool)
    (installed : List (String × String)) (pkgs : List (String × JVal)) : Bool :=
  pkgs.all (fun p => pkgEntryOk pkgResourcesOk reqCheck installed p.1 p.2)

/-- Lines 273-279: the required-files pass.  A non-mapping `files` value
makes `.items()` raise, which the enclosing `except Exception` turns into
`False`. -/
def filesPass (E : CheckEnv) (config : List (String × JVal)) : Bool :=
  match dictGet? config "files" with
  | none => true
  | some (.jobj fs) =>
      fs.all (fun p => !(jTruthy p.2) || E.fileExists (pathJoin E.venvPath p.1))
  | some _ => false

/-- Lines 287-329: the package pass, entered only when the config has a
`packages` key and `importlib.metadata` imported. -/
def packagesPass (E : CheckEnv) (config : List (String × JVal)) : Bool :=
  match dictGet? config "packages" with
  | none => true
  | some pk =>
      if E.metadataAvailable then
        match E.installed? with
        | none => false                         -- enumeration raised → return False
        | some installed =>
            match pk with
            | .jobj pkgs => checkPackages E.pkgResourcesOk E.reqCheck installed pkgs
            | _ => false                        -- `.items()` raises → except → False
      else true                                 -- capability missing → skip the pass

/-- Lines 267-342: the body of the outer `try`; every exception inside it
is caught and converted to `False`, so the body denotes a boolean. -/
def checkBody (E : CheckEnv) (config : List (String × JVal)) (runPipCheck : Bool) : Bool :=
  E.pythonGe38 && filesPass E config && packagesPass E config &&
    (!runPipCheck || E.pipCheckPasses)

/-- Whether a call returned normally (`.ok`) rather than letting an
exception escape (`.error`). -/
def excIsOk {α : Type} : Except Exc α → Bool
  | .ok _ => true
  | .error _ => false

def check_consistency (E : CheckEnv) (configArg : ConfigArg) (runPipCheck : Bool) :
    Except Exc Bool :=
  match configMergeResult E (default_config E.isWin32) configArg with
  | .error e => .error e
  | .ok none => .ok false
  | .ok (some config) => .ok (checkBody E config runPipCheck)

/-! ## run (`env_manager.py` lines 124-218) -/

/-- `subprocess.CompletedProcess` as stored in `self.command_result`. -/
structure ExecResult where
  argsLine : String
  returncode : Int
  stdout : Option String
  stderr : Option String
deriving DecidableEq, Repr

/-- Outcome of the single `subprocess.run(...)` call, supplied as an
oracle: the process completed (possibly with a nonzero status, which
`check=True` turns into a `CalledProcessError`), or `subprocess.run`
raised `FileNotFoundError`, or it raised some other exception. -/
inductive SpawnOutcome where
  | completed (returncode : Int) (stdout stderr : Option String)
  | fnfRaised (msg : String)
  | otherRaised (e : PyErr)
deriving DecidableEq, Repr

/-- Static data of one `EnvManager`: the platform, the absolute
environment path, and the inherited `os.environ`. -/
structure RunEnv where
  isWin32 : Bool
  venvPath : String
  osEnviron : List (String × String)

def binDirName (isWin32 : Bool) : String := if isWin32 then "Scripts" else "bin"

def quoteStr (s : String) : String := "\"" ++ s ++ "\""

def joinArgs (args : List String) : String := String.intercalate " " args

/-- Lines 126-137 of `_activate_command`: the activated environment map it
computes into its local `process_env` — `VIRTUAL_ENV` set to the
environment root and the bin directory prepended to `PATH` — and then
never uses (the local is dropped when the function returns). -/
def activate_process_env (E : RunEnv) : List (String × String) :=
  let platform_locator := pathJoin E.venvPath (binDirName E.isWin32)
  let pe := dictSet E.osEnviron "VIRTUAL_ENV" E.venvPath
  dictSet pe "PATH"
    (platform_locator ++ (if E.isWin32 then ";" else ":") ++ ((dictGet? pe "PATH").getD ""))

/-- Lines 145-149: the activation command string returned by
`_activate_command`. -/
def activate_command_str (E : RunEnv) : String :=
  let activate_script := pathJoin (pathJoin E.venvPath (binDirName E.isWin32)) "activate"
  if E.isWin32 then quoteStr activate_script else "source " ++ quoteStr activate_script

/-- Lines 177-179: `process_env = os.environ.copy(); if env: process_env.update(env)`.
This — and only this — is the map handed to `subprocess.run`. -/
def py_process_env (base : List (String × String))
    (env : Option (List (String × String))) : List (String × String) :=
  match env with
  | none => base
  | some o => if o.isEmpty then base else dictUpdate base o

/-- Everything observable about one `run(...)` call: the final
`self.command_result`, the exception that escaped (`none` = returned
`self`), how many times `_create` was called, the command string and
environment map passed to `subprocess.run` (`none` = never spawned), and
whether the environment directory exists afterwards. -/
structure RunResult where
  commandResult : Option ExecResult
  raised : Option Exc
  createAttempts : Nat
  spawnedCmd : Option String
  spawnedEnv : Option (List (String × String))
  existsAfter : Bool
deriving Repr

/-- Lines 176-212: the part of `run` after auto-provisioning (the
environment exists here, so `existsAfter = true` throughout). -/
def runAfterProvision (E : RunEnv) (attempts : Nat) (activateExists : Bool)
    (spawn : SpawnOutcome) (command : String) (args : List String)
    (capture_output : Bool) (env : Option (List (String × String))) : RunResult :=
  let cmdline := command ++ " " ++ joinArgs args
  let process_env := py_process_env E.osEnviron env
  if activateExists then
    let full_command := activate_command_str E ++ " && " ++ cmdline
    match spawn with
    | .completed rc out err =>
        if rc == 0 then
          ⟨some ⟨full_command, rc, out, err⟩, none, attempts,
            some full_command, some process_env, true⟩
        else
          -- `check=True` raised CalledProcessError; lines 198-206
          ⟨none,
           some (.cmdExecError
             ("Command \x27" ++ cmdline ++ "\x27 failed: " ++ cpeMsg full_command rc)
             (.calledProcessError full_command rc err)),
           attempts, some full_command, some process_env, true⟩
    | .fnfRaised m =>
        -- lines 207-209
        ⟨none, some (.envError ("File not found: " ++ m) (some (.fileNotFoundError m))),
         attempts, some full_command, some process_env, true⟩
    | .otherRaised e =>
        -- lines 210-212: re-raised as-is
        ⟨none, some (.pyErr e), attempts, some full_command, some process_env, true⟩
  else
    -- lines 139-143 of _activate_command: RuntimeError, before any spawn
    ⟨none,
     some (.runtimeError ("Activation script not found: " ++
       pathJoin (pathJoin E.venvPath (binDirName E.isWin32)) "activate" ++
       ", try flushing environment")),
     attempts, none, none, true⟩

/-- Lines 168-212: `run(command, *args, capture_output=True, env=None)`.
`prevResult` is the `self.command_result` stored before the call (line 168
overwrites it with `None` before anything else); `existsBefore` is
`self.exists()` at entry; `createOutcome` is the oracle outcome of the
lazy `self._create()` (raised exception, if any, and whether the path
exists afterwards). -/
def run (E : RunEnv) (prevResult : Option ExecResult) (existsBefore : Bool)
    (createOutcome : Option PyErr × Bool) (activateExists : Bool)
    (spawn : SpawnOutcome) (command : String) (args : List String)
    (capture_output : Bool) (env : Option (List (String × String))) : RunResult :=
  -- line 168: self.command_result = None — prevResult is discarded here
  if existsBefore then
    runAfterProvision E 0 activateExists spawn command args capture_output env
  else
    match createOutcome with
    | (some e, existsNow) =>
        -- `self._create()` raised; nothing catches it inside `run`
        ⟨none, some (.pyErr e), 1, none, none, existsNow⟩
    | (none, existsNow) =>
        if existsNow then
          runAfterProvision E 1 activateExists spawn command args capture_output env
        else
          -- lines 171-174
          ⟨none,
           some (.runtimeError ("Failed to create virtual environment at " ++ E.venvPath)),
           1, none, none, false⟩

/-- Lines 214-218: the `result()` accessor. -/
def result (r : RunResult) : Option ExecResult := r.commandResult

/-! ## Helper lemmas about `runAfterProvision` -/

theorem runAfterProvision_attempts_irrel (E : RunEnv) (a1 a2 : Nat) (act : Bool)
    (sp : SpawnOutcome) (cmd : String) (args : List String) (cap : Bool)
    (env : Option (List (String × String))) :
    (runAfterProvision E a1 act sp cmd args cap env).raised
      = (runAfterProvision E a2 act sp cmd args cap env).raised
    ∧ (runAfterProvision E a1 act sp cmd args cap env).commandResult
      = (runAfterProvision E a2 act sp cmd args cap env).commandResult
    ∧ (runAfterProvision E a1 act sp cmd args cap env).spawnedCmd
      = (runAfterProvision E a2 act sp cmd args cap env).spawnedCmd
    ∧ (runAfterProvision E a1 act sp cmd args cap env).spawnedEnv
      = (runAfterProvision E a2 act sp cmd args cap env).spawnedEnv := by
  cases act with
  | false => exact ⟨rfl, rfl, rfl, rfl⟩
  | true =>
      cases sp with
      | completed rc out err => by_cases h : rc == 0 <;> simp [runAfterProvision, h]
      | fnfRaised m => exact ⟨rfl, rfl, rfl, rfl⟩
      | otherRaised e => exact ⟨rfl, rfl, rfl, rfl⟩

theorem runAfterProvision_createAttempts (E : RunEnv) (a : Nat) (act : Bool)
    (sp : SpawnOutcome) (cmd : String) (args : List String) (cap : Bool)
    (env : Option (List (String × String))) :
    (runAfterProvision E a act sp cmd args cap env).createAttempts = a := by
  cases act with
  | false => rfl
  | true =>
      cases sp with
      | completed rc out err => by_cases h : rc == 0 <;> simp [runAfterProvision, h]
      | fnfRaised m => rfl
      | otherRaised e => rfl

theorem runAfterProvision_existsAfter (E : RunEnv) (a : Nat) (act : Bool)
    (sp : SpawnOutcome) (cmd : String) (args : List String) (cap : Bool)
    (env : Option (List (String × String))) :
    (runAfterProvision E a act sp cmd args cap env).existsAfter = true := by
  cases act with
  | false => rfl
  | true =>
      cases sp with
      | completed rc out err => by_cases h : rc == 0 <;> simp [runAfterProvision, h]
      | fnfRaised m => rfl
      | otherRaised e => rfl

theorem runAfterProvision_spawned (E : RunEnv) (a : Nat) (sp : SpawnOutcome)
    (cmd : String) (args : List String) (cap : Bool)
    (env : Option (List (String × String))) :
    (runAfterProvision E a true sp cmd args cap env).spawnedEnv
      = some (py_process_env E.osEnviron env)
    ∧ (runAfterProvision E a true sp cmd args cap env).spawnedCmd
      = some (activate_command_str E ++ " && " ++ (cmd ++ " " ++ joinArgs args)) := by
  cases sp with
  | completed rc out err => by_cases h : rc == 0 <;> simp [runAfterProvision, h]
  | fnfRaised m => exact ⟨rfl, rfl⟩
  | otherRaised e => exact ⟨rfl, rfl⟩

theorem runAfterProvision_result_cleared (E : RunEnv) (a : Nat) (act : Bool)
    (sp : SpawnOutcome) (cmd : String) (args : List String) (cap : Bool)
    (env : Option (List (String × String))) :
    ((runAfterProvision E a act sp cmd args cap env).raised.isSome
      && (runAfterProvision E a act sp cmd args cap env).commandResult.isSome) = false := by
  cases act with
  | false => rfl
  | true =>
      cases sp with
      | completed rc out err => by_cases h : rc == 0 <;> simp [runAfterProvision, h]
      | fnfRaised m => rfl
      | otherRaised e => rfl

/-! ## Claims -/

/-- C1: the claim says `flush(clear)` succeeds (returns self) whenever the
second, forced-clear create attempt succeeds, and raises a wrapping
`EnvironmentError` only when the second attempt also raises.  The code does
the opposite: after a successful recovery it still executes the
unconditional `raise EnvError(...)`, and when the recovery attempt raises,
that exception propagates unwrapped before the `raise EnvError` line is
reached.  Evaluated here at a first attempt that raises an OSError: with a
succeeding second attempt, `flush` raises `EnvError` even though the
environment exists; with a failing second attempt, the raw second
exception propagates instead of an `EnvError`. -/
theorem c1_flush_recovery_bug :
    (flush true (some (.osError "disk error"), false) (none, true) =
      (some (.envError ("Unable to recreate environmet: disk error")
        (some (.osError "disk error"))), true))
    ∧ (flush true (some (.osError "disk error"), false) (some (.osError "boom"), false) =
      (some (.pyErr (.osError "boom")), false))
    ∧ isEnvErr (flush true (some (.osError "disk error"), false)
        (some (.osError "boom"), false)).1 = false := by
  refine ⟨rfl, rfl, rfl⟩

/-- C10: the claim says exiting a `with EnvManager(...)` block invokes
`remove()`, so the environment no longer exists afterwards.  In the code
`__exit__` is declared with only `self`, while the `with` protocol calls
it with four positional arguments, so Python raises a `TypeError` at block
exit and `remove()` never runs: on an existing environment, the
environment still exists after the block. -/
theorem c10_exit_dunder_bug :
    with_block_exit true =
      ⟨true, some (.typeErr "__exit__() takes 1 positional argument but 4 were given")⟩
    ∧ remove true = false := by
  refine ⟨rfl, rfl⟩

/-- C2 counterexample: a concrete `run("python", "--version")` with
inherited environment `{PATH: /usr/bin}`.  The map passed to the spawned
subprocess is exactly the inherited map — no `VIRTUAL_ENV` entry and no
bin-directory prepend on `PATH` — and differs from the activation map that
`_activate_command` computes into its discarded local. -/
theorem c2_env_map_counterexample :
    (run ⟨false, "/work/.venv", [("PATH", "/usr/bin")]⟩ none true (none, true) true
        (.completed 0 (some "") (some "")) "python" ["--version"] true none).spawnedEnv
      = some [("PATH", "/usr/bin")]
    ∧ dictGet? [("PATH", "/usr/bin")] "VIRTUAL_ENV" = none
    ∧ activate_process_env ⟨false, "/work/.venv", [("PATH", "/usr/bin")]⟩
      = [("PATH", "/work/.venv/bin:/usr/bin"), ("VIRTUAL_ENV", "/work/.venv")]
    ∧ (run ⟨false, "/work/.venv", [("PATH", "/usr/bin")]⟩ none true (none, true) true
        (.completed 0 (some "") (some "")) "python" ["--version"] true none).spawnedEnv
      ≠ some (activate_process_env ⟨false, "/work/.venv", [("PATH", "/usr/bin")]⟩) := by
  refine ⟨rfl, rfl, rfl, by decide⟩

/-- C3 counterexample: on an existing environment whose activation script
is missing, `run` raises a `RuntimeError` — not the module's
`EnvError`/`EnvironmentError` type — and never spawns the command. -/
theorem c3_activation_error_counterexample :
    (run ⟨false, "/work/.venv", []⟩ none true (none, true) false
        (.completed 0 none none) "pip" ["install", "requests"] true none).raised
      = some (.runtimeError
          "Activation script not found: /work/.venv/bin/activate, try flushing environment")
    ∧ isEnvErr (run ⟨false, "/work/.venv", []⟩ none true (none, true) false
        (.completed 0 none none) "pip" ["install", "requests"] true none).raised = false
    ∧ (run ⟨false, "/work/.venv", []⟩ none true (none, true) false
        (.completed 0 none none) "pip" ["install", "requests"] true none).spawnedCmd = none := by
  refine ⟨rfl, rfl, rfl⟩

/-- C4 counterexample: a configuration path whose file exists and parses
as valid JSON that is not a mapping (the document `5`).  `json.load`
succeeds, so the `except json.JSONDecodeError` clause does not fire, and
`config.update(5)` raises a `TypeError` that propagates to the caller:
`check_consistency` does not return `false` here, it raises. -/
theorem c4_propagation_counterexample :
    check_consistency
        ⟨false, "/venv", (fun _ => true), (fun _ => .parsed (.jnum 5)), true, true, true,
          some [], true, (fun _ _ _ => some true)⟩
        (.strArg "cfg.json") true
      = .error (.typeErr "\x27int\x27 object is not iterable") := by
  rfl

/-- C2 amended: for every `run` invocation that reaches the subprocess
spawn (environment present, or created on demand, and the activation
script present), the environment map passed to the subprocess is exactly
the inherited process environment with the caller-supplied `env` overrides
merged — the bin-directory `PATH` prepend and the `VIRTUAL_ENV` marker are
not part of that map (`_activate_command` computes them into a local it
then discards); activation state instead reaches the command because the
spawned shell commandline sources the activation script before the
command. -/
theorem c2_spawn_env_amended (E : RunEnv) (prev : Option ExecResult)
    (c : Option PyErr × Bool) (spawn : SpawnOutcome) (command : String)
    (args : List String) (cap : Bool) (env : Option (List (String × String))) :
    ((run E prev true c true spawn command args cap env).spawnedEnv
        = some (py_process_env E.osEnviron env)
      ∧ (run E prev true c true spawn command args cap env).spawnedCmd
        = some (activate_command_str E ++ " && " ++ (command ++ " " ++ joinArgs args)))
    ∧ ((run E prev false (none, true) true spawn command args cap env).spawnedEnv
        = some (py_process_env E.osEnviron env)
      ∧ (run E prev false (none, true) true spawn command args cap env).spawnedCmd
        = some (activate_command_str E ++ " && " ++ (command ++ " " ++ joinArgs args))) := by
  exact ⟨runAfterProvision_spawned E 0 spawn command args cap env,
         runAfterProvision_spawned E 1 spawn command args cap env⟩

/-- C3 amended: `run()` on an existing environment whose activation script
is missing fails immediately with a `RuntimeError` (not the module's
`EnvError` and not a `CmdExecError`) whose message identifies the missing
activation script and suggests flushing; the command is never spawned and
the stored result stays cleared. -/
theorem c3_activation_missing_amended (E : RunEnv) (prev : Option ExecResult)
    (c : Option PyErr × Bool) (spawn : SpawnOutcome) (command : String)
    (args : List String) (cap : Bool) (env : Option (List (String × String))) :
    (run E prev true c false spawn command args cap env).raised
      = some (.runtimeError ("Activation script not found: " ++
          pathJoin (pathJoin E.venvPath (binDirName E.isWin32)) "activate" ++
          ", try flushing environment"))
    ∧ isEnvErr (run E prev true c false spawn command args cap env).raised = false
    ∧ isCmdExecErr (run E prev true c false spawn command args cap env).raised = false
    ∧ (run E prev true c false spawn command args cap env).spawnedCmd = none
    ∧ result (run E prev true c false spawn command args cap env) = none := by
  refine ⟨rfl, rfl, rfl, rfl, rfl⟩

/-- C7: when the environment does not exist at entry, `run` calls
`_create` exactly once; if the environment exists after that attempt, the
call proceeds exactly as a call on an existing environment would (and on
success the environment exists afterwards); if the environment still does
not exist, `run` fails with the `RuntimeError("Failed to create virtual
environment at ...")` — a not-provisioned error that is not a
`CmdExecError` — without spawning the command. -/
theorem c7_auto_provision (E : RunEnv) (prev : Option ExecResult)
    (co : Option PyErr × Bool) (activate : Bool) (spawn : SpawnOutcome)
    (command : String) (args : List String) (cap : Bool)
    (env : Option (List (String × String))) :
    ((run E prev false co activate spawn command args cap env).createAttempts = 1)
    ∧ ((run E prev false (none, true) activate spawn command args cap env).raised
        = (run E prev true co activate spawn command args cap env).raised
      ∧ (run E prev false (none, true) activate spawn command args cap env).commandResult
        = (run E prev true co activate spawn command args cap env).commandResult
      ∧ (run E prev false (none, true) activate spawn command args cap env).spawnedCmd
        = (run E prev true co activate spawn command args cap env).spawnedCmd
      ∧ (run E prev false (none, true) activate spawn command args cap env).existsAfter
        = true)
    ∧ ((run E prev false (none, false) activate spawn command args cap env).raised
        = some (.runtimeError ("Failed to create virtual environment at " ++ E.venvPath))
      ∧ isCmdExecErr
          (run E prev false (none, false) activate spawn command args cap env).raised = false
      ∧ (run E prev false (none, false) activate spawn command args cap env).spawnedCmd
        = none)
    ∧ ((run E prev true co activate spawn command args cap env).existsAfter = true) := by
  have hirrel := runAfterProvision_attempts_irrel E 1 0 activate spawn command args cap env
  refine ⟨?_, ⟨hirrel.1, hirrel.2.1, hirrel.2.2.1, ?_⟩, ⟨rfl, rfl, rfl⟩, ?_⟩
  · rcases co with ⟨e?, ex⟩
    cases e? with
    | none =>
        cases ex with
        | false => rfl
        | true => exact runAfterProvision_createAttempts E 1 activate spawn command args cap env
    | some e => rfl
  · exact runAfterProvision_existsAfter E 1 activate spawn command args cap env
  · exact runAfterProvision_existsAfter E 0 activate spawn command args cap env

/-- C8: for every executed command, a completed process with a nonzero
exit status makes `run` raise `CmdExecError` carrying the command line,
the exit code and the captured stderr (via the chained
`CalledProcessError` cause), while a zero status raises nothing; an
OS-level missing file (`FileNotFoundError` from `subprocess.run`) makes
`run` raise `EnvError` instead; and no provisioning failure — `_create`
raising, the environment still absent after creation, or the activation
script missing — ever raises `CmdExecError`. -/
theorem c8_error_taxonomy (E : RunEnv) (prev : Option ExecResult)
    (co : Option PyErr × Bool) (activate : Bool) (spawn : SpawnOutcome)
    (command : String) (args : List String) (cap : Bool)
    (env : Option (List (String × String))) (rc : Int) (out err : Option String)
    (m : String) (e : PyErr) (ex : Bool) :
    ((run E prev true co true (.completed rc out err) command args cap env).raised
      = (if rc == 0 then none
         else some (.cmdExecError
           ("Command \x27" ++ (command ++ " " ++ joinArgs args) ++ "\x27 failed: " ++
             cpeMsg (activate_command_str E ++ " && " ++ (command ++ " " ++ joinArgs args)) rc)
           (.calledProcessError
             (activate_command_str E ++ " && " ++ (command ++ " " ++ joinArgs args)) rc err))))
    ∧ ((run E prev true co true (.fnfRaised m) command args cap env).raised
        = some (.envError ("File not found: " ++ m) (some (.fileNotFoundError m))))
    ∧ isCmdExecErr
        (run E prev true co true (.fnfRaised m) command args cap env).raised = false
    ∧ isCmdExecErr
        (run E prev false (some e, ex) activate spawn command args cap env).raised = false
    ∧ isCmdExecErr
        (run E prev false (none, false) activate spawn command args cap env).raised = false
    ∧ isCmdExecErr
        (run E prev true co false spawn command args cap env).raised = false := by
  refine ⟨?_, rfl, rfl, rfl, rfl, rfl⟩
  by_cases h : rc == 0 <;> simp [run, runAfterProvision, h]

/-- C9: `run` overwrites the stored result with `None` before anything
else (it is insensitive to the previously stored result), and every `run`
invocation that raises leaves the stored result `None`, so a subsequent
`result()` returns `None` rather than an earlier command's result. -/
theorem c9_result_cleared (E : RunEnv) (prev : Option ExecResult) (eb : Bool)
    (co : Option PyErr × Bool) (activate : Bool) (spawn : SpawnOutcome)
    (command : String) (args : List String) (cap : Bool)
    (env : Option (List (String × String))) :
    ((run E prev eb co activate spawn command args cap env).raised.isSome
      && (result (run E prev eb co activate spawn command args cap env)).isSome) = false
    ∧ run E prev eb co activate spawn command args cap env
      = run E none eb co activate spawn command args cap env := by
  refine ⟨?_, rfl⟩
  show ((run E prev eb co activate spawn command args cap env).raised.isSome
      && (run E prev eb co activate spawn command args cap env).commandResult.isSome) = false
  cases eb with
  | true => exact runAfterProvision_result_cleared E 0 activate spawn command args cap env
  | false =>
      rcases co with ⟨e?, exn⟩
      cases e? with
      | some e => rfl
      | none =>
          cases exn with
          | false => rfl
          | true => exact runAfterProvision_result_cleared E 1 activate spawn command args cap env

/-- C4 amended: `check_consistency` fails closed — it returns a boolean
rather than raising — for a missing configuration file, a document that
fails to decode as JSON, an invalid `config_json` type, and every failure
inside the checking procedure itself.  The exceptions to the claim, both
on the configuration-path branch: an exception raised while opening or
reading the file other than `json.JSONDecodeError` (the only class the
`except` clause catches — e.g. `PermissionError`, `UnicodeDecodeError`)
propagates, and so does the `TypeError`/`ValueError` raised by
`config.update` on a document that is valid JSON but not a mapping nor an
update-compatible pair sequence (e.g. the document `5`).  Every escaping
exception comes from one of those two situations. -/
theorem c4_advisory_amended (E : CheckEnv) (a : ConfigArg) (r : Bool)
    (h : excIsOk (check_consistency E a r) = false) :
    ∃ p, a = ConfigArg.strArg p ∧ p.isEmpty = false ∧ E.fileExists p = true
      ∧ ((∃ e, E.fileRead p = FileReadOutcome.readRaised e)
         ∨ (∃ v, E.fileRead p = FileReadOutcome.parsed v
              ∧ excIsOk (pyDictUpdate (default_config E.isWin32) v) = false)) := by
  cases a with
  | noneArg => simp [check_consistency, configMergeResult, excIsOk] at h
  | strArg p =>
      by_cases hp : p.isEmpty
      · simp [check_consistency, configMergeResult, hp, excIsOk] at h
      · by_cases hfe : E.fileExists p
        · cases hfr : E.fileRead p with
          | readRaised e =>
              exact ⟨p, rfl, by simp [hp], by simp [hfe], Or.inl ⟨e, hfr⟩⟩
          | decodeError m =>
              simp [check_consistency, configMergeResult, hp, hfe, hfr, excIsOk] at h
          | parsed v =>
              cases hup : pyDictUpdate (default_config E.isWin32) v with
              | ok c =>
                  simp [check_consistency, configMergeResult, hp, hfe, hfr, hup, excIsOk] at h
              | error e2 =>
                  exact ⟨p, rfl, by simp [hp], by simp [hfe],
                    Or.inr ⟨v, hfr, by simp [hup, excIsOk]⟩⟩
        · simp [check_consistency, configMergeResult, hp, hfe, excIsOk] at h
  | dictArg d =>
      by_cases hd : d.isEmpty <;>
        simp [check_consistency, configMergeResult, hd, excIsOk] at h
  | otherArg t =>
      cases t <;> simp [check_consistency, configMergeResult, excIsOk] at h

/-- Helper: for a host with Python at least 3.8, both capabilities
available, a retrievable package enumeration and the pip check disabled,
`check_consistency` on an inline config that empties the `files` map and
supplies a `packages` map reduces to the package pass. -/
theorem check_consistency_dict_packages (fe : String → Bool)
    (fr : String → FileReadOutcome) (rc : String → JVal → String → Option Bool)
    (installed : List (String × String)) (pkgs : List (String × JVal)) :
    check_consistency ⟨false, "/venv", fe, fr, true, true, true, some installed, true, rc⟩
      (.dictArg [("files", .jobj []), ("packages", .jobj pkgs)]) false
    = .ok (checkPackages true rc installed pkgs) := by
  simp [check_consistency, configMergeResult, default_config, dictUpdate, dictSet,
    checkBody, filesPass, packagesPass, dictGet?]

/-- Helper: one failing entry makes the whole package pass fail. -/
theorem checkPackages_false_of_mem (rc : String → JVal → String → Option Bool)
    (installed : List (String × String))
    (pkgs : List (String × JVal)) (name : String) (c : JVal)
    (hmem : (name, c) ∈ pkgs) (hfalse : pkgEntryOk true rc installed name c = false) :
    checkPackages true rc installed pkgs = false := by
  apply Bool.eq_false_iff.mpr
  intro hall
  have h2 := List.all_eq_true.mp hall (name, c) hmem
  simp only [] at h2
  rw [hfalse] at h2
  exact Bool.false_ne_true h2

/-- C5: on a host where the package pass actually runs (metadata
capability present, enumeration `installed` retrieved, pip check off,
files requirements emptied by the supplied config), `check_consistency`
(1) returns false when a configured package name is absent from the
installed enumeration, (2) returns false when the external requirement
parse of a configured constraint string raises
(`RequirementParseError`), (3) returns false when the parsed constraint
is not satisfied by the installed version (the containment test returns
false), and (4) treats a `null` constraint as satisfied by any installed
version — a single such requirement on an installed package yields
`true`.  The external `Requirement.parse`/`specifier.contains` pair is
the `rc` oracle. -/
theorem c5_package_constraints (fe : String → Bool) (fr : String → FileReadOutcome)
    (rc : String → JVal → String → Option Bool)
    (installed : List (String × String)) :
    (∀ (pkgs : List (String × JVal)) (name : String) (c : JVal),
        (name, c) ∈ pkgs → dictGet? installed name = none →
        check_consistency ⟨false, "/venv", fe, fr, true, true, true, some installed, true, rc⟩
          (.dictArg [("files", .jobj []), ("packages", .jobj pkgs)]) false = .ok false)
    ∧ (∀ (pkgs : List (String × JVal)) (name : String) (s : String) (iv : String),
        (name, JVal.jstr s) ∈ pkgs → dictGet? installed name = some iv →
        s.isEmpty = false → rc name (JVal.jstr s) iv = none →
        check_consistency ⟨false, "/venv", fe, fr, true, true, true, some installed, true, rc⟩
          (.dictArg [("files", .jobj []), ("packages", .jobj pkgs)]) false = .ok false)
    ∧ (∀ (pkgs : List (String × JVal)) (name : String) (s : String) (iv : String),
        (name, JVal.jstr s) ∈ pkgs → dictGet? installed name = some iv →
        s.isEmpty = false → rc name (JVal.jstr s) iv = some false →
        check_consistency ⟨false, "/venv", fe, fr, true, true, true, some installed, true, rc⟩
          (.dictArg [("files", .jobj []), ("packages", .jobj pkgs)]) false = .ok false)
    ∧ (∀ (name : String) (iv : String), dictGet? installed name = some iv →
        check_consistency ⟨false, "/venv", fe, fr, true, true, true, some installed, true, rc⟩
          (.dictArg [("files", .jobj []), ("packages", .jobj [(name, JVal.jnull)])]) false
          = .ok true) := by
  refine ⟨?_, ?_, ?_, ?_⟩
  · intro pkgs name c hmem hmiss
    rw [check_consistency_dict_packages fe fr rc installed pkgs]
    rw [checkPackages_false_of_mem rc installed pkgs name c hmem
      (by simp [pkgEntryOk, hmiss])]
  · intro pkgs name s iv hmem hg hs hrc
    rw [check_consistency_dict_packages fe fr rc installed pkgs]
    have hentry : pkgEntryOk true rc installed name (JVal.jstr s) = false := by
      simp [pkgEntryOk, hg, jTruthy, hs, hrc]
    rw [checkPackages_false_of_mem rc installed pkgs name (JVal.jstr s) hmem hentry]
  · intro pkgs name s iv hmem hg hs hrc
    rw [check_consistency_dict_packages fe fr rc installed pkgs]
    have hentry : pkgEntryOk true rc installed name (JVal.jstr s) = false := by
      simp [pkgEntryOk, hg, jTruthy, hs, hrc]
    rw [checkPackages_false_of_mem rc installed pkgs name (JVal.jstr s) hmem hentry]
  · intro name iv hg
    rw [check_consistency_dict_packages fe fr rc installed [(name, JVal.jnull)]]
    simp [checkPackages, pkgEntryOk, hg, jTruthy]

/-- C5 witness: the four parts at concrete inputs, with the requirement
oracle fixed to the observed behavior of `pkg_resources` at those inputs:
installed packages `{packageX: 2.28.1, pip: 24.0}`; the missing package
`requests`; the constraint `not-a-version!` (whose formatted requirement
`packageXnot-a-version!` makes `Requirement.parse` raise); the constraint
`>=2.31.0`, not satisfied by installed `2.28.1`; and `packageX: null`
with `packageX` installed. -/
theorem c5_package_constraints_witness :
    (check_consistency
        ⟨false, "/venv", (fun _ => false), (fun _ => .parsed .jnull), true, true, true,
          some [("packageX", "2.28.1"), ("pip", "24.0")], true,
          (fun _ c _ =>
            match c with
            | .jstr s =>
                if s = "not-a-version!" then none
                else if s = ">=2.31.0" then some false
                else some true
            | _ => some true)⟩
        (.dictArg [("files", .jobj []), ("packages", .jobj [("requests", .jnull)])]) false
      = .ok false)
    ∧ (check_consistency
        ⟨false, "/venv", (fun _ => false), (fun _ => .parsed .jnull), true, true, true,
          some [("packageX", "2.28.1"), ("pip", "24.0")], true,
          (fun _ c _ =>
            match c with
            | .jstr s =>
                if s = "not-a-version!" then none
                else if s = ">=2.31.0" then some false
                else some true
            | _ => some true)⟩
        (.dictArg [("files", .jobj []),
          ("packages", .jobj [("packageX", .jstr "not-a-version!")])]) false
      = .ok false)
    ∧ (check_consistency
        ⟨false, "/venv", (fun _ => false), (fun _ => .parsed .jnull), true, true, true,
          some [("packageX", "2.28.1"), ("pip", "24.0")], true,
          (fun _ c _ =>
            match c with
            | .jstr s =>
                if s = "not-a-version!" then none
                else if s = ">=2.31.0" then some false
                else some true
            | _ => some true)⟩
        (.dictArg [("files", .jobj []),
          ("packages", .jobj [("packageX", .jstr ">=2.31.0")])]) false
      = .ok false)
    ∧ (check_consistency
        ⟨false, "/venv", (fun _ => false), (fun _ => .parsed .jnull), true, true, true,
          some [("packageX", "2.28.1"), ("pip", "24.0")], true,
          (fun _ c _ =>
            match c with
            | .jstr s =>
                if s = "not-a-version!" then none
                else if s = ">=2.31.0" then some false
                else some true
            | _ => some true)⟩
        (.dictArg [("files", .jobj []), ("packages", .jobj [("packageX", .jnull)])]) false
      = .ok true) := by
  refine ⟨?_, ?_, ?_, ?_⟩
  · exact (c5_package_constraints (fun _ => false) (fun _ => .parsed .jnull)
      (fun _ c _ =>
        match c with
        | .jstr s =>
            if s = "not-a-version!" then none
            else if s = ">=2.31.0" then some false
            else some true
        | _ => some true)
      [("packageX", "2.28.1"), ("pip", "24.0")]).1
      [("requests", .jnull)] "requests" .jnull (List.mem_singleton.mpr rfl) (by decide)
  · exact (c5_package_constraints (fun _ => false) (fun _ => .parsed .jnull)
      (fun _ c _ =>
        match c with
        | .jstr s =>
            if s = "not-a-version!" then none
            else if s = ">=2.31.0" then some false
            else some true
        | _ => some true)
      [("packageX", "2.28.1"), ("pip", "24.0")]).2.1
      [("packageX", .jstr "not-a-version!")] "packageX" "not-a-version!" "2.28.1"
      (List.mem_singleton.mpr rfl) (by decide) (by decide) (by decide)
  · exact (c5_package_constraints (fun _ => false) (fun _ => .parsed .jnull)
      (fun _ c _ =>
        match c with
        | .jstr s =>
            if s = "not-a-version!" then none
            else if s = ">=2.31.0" then some false
            else some true
        | _ => some true)
      [("packageX", "2.28.1"), ("pip", "24.0")]).2.2.1
      [("packageX", .jstr ">=2.31.0")] "packageX" ">=2.31.0" "2.28.1"
      (List.mem_singleton.mpr rfl) (by decide) (by decide) (by decide)
  · exact (c5_package_constraints (fun _ => false) (fun _ => .parsed .jnull)
      (fun _ c _ =>
        match c with
        | .jstr s =>
            if s = "not-a-version!" then none
            else if s = ">=2.31.0" then some false
            else some true
        | _ => some true)
      [("packageX", "2.28.1"), ("pip", "24.0")]).2.2.2
      "packageX" "2.28.1" (by decide)

/-- C6: the supplied configuration (inline dict, or a parsed document with
the same fields) is merged over the default configuration by top-level key
only: a supplied `files` map becomes the merged `files` value wholesale,
and likewise `packages` — the merged lookup returns exactly the supplied
value, so default entries not repeated by the caller are dropped and no
per-entry deep merge happens. -/
theorem c6_shallow_merge (E : CheckEnv) (d : List (String × JVal)) (fsv pkv : JVal)
    (hnd : (d.map Prod.fst).Nodup)
    (hf : dictGet? d "files" = some fsv) (hp : dictGet? d "packages" = some pkv) :
    configMergeResult E (default_config E.isWin32) (.dictArg d)
      = .ok (some (dictUpdate (default_config E.isWin32) d))
    ∧ dictGet? (dictUpdate (default_config E.isWin32) d) "files" = some fsv
    ∧ dictGet? (dictUpdate (default_config E.isWin32) d) "packages" = some pkv
    ∧ (∀ p : String, p.isEmpty = false → E.fileExists p = true →
        E.fileRead p = FileReadOutcome.parsed (.jobj d) →
        configMergeResult E (default_config E.isWin32) (.strArg p)
          = .ok (some (dictUpdate (default_config E.isWin32) d))) := by
  have hne : d.isEmpty = false := by
    cases d with
    | nil => simp [dictGet?] at hf
    | cons a t => rfl
  refine ⟨?_, ?_, ?_, ?_⟩
  · simp [configMergeResult, hne]
  · rw [dictGet?_dictUpdate d (default_config E.isWin32) "files" hnd, hf]
  · rw [dictGet?_dictUpdate d (default_config E.isWin32) "packages" hnd, hp]
  · intro p hp1 hp2 hp3
    simp [configMergeResult, hp1, hp2, hp3, pyDictUpdate]

/-- C6 witness: a supplied config with one file entry and one package
entry; the merged maps are exactly the supplied ones (the five default
file entries and the default `pip` entry are dropped), both for the inline
dict and for the same document parsed from a path. -/
theorem c6_shallow_merge_witness :
    configMergeResult
        ⟨false, "/venv", (fun _ => true),
          (fun _ => .parsed (.jobj [("files", JVal.jobj [("myfile", .jbool true)]),
            ("packages", JVal.jobj [("requests", .jstr ">=2.31.0")])])),
          true, true, true, some [], true, (fun _ _ _ => some true)⟩
        (default_config false)
        (.dictArg [("files", JVal.jobj [("myfile", .jbool true)]),
          ("packages", JVal.jobj [("requests", .jstr ">=2.31.0")])])
      = .ok (some (dictUpdate (default_config false)
          [("files", JVal.jobj [("myfile", .jbool true)]),
           ("packages", JVal.jobj [("requests", .jstr ">=2.31.0")])]))
    ∧ dictGet? (dictUpdate (default_config false)
          [("files", JVal.jobj [("myfile", .jbool true)]),
           ("packages", JVal.jobj [("requests", .jstr ">=2.31.0")])]) "files"
      = some (JVal.jobj [("myfile", .jbool true)])
    ∧ dictGet? (dictUpdate (default_config false)
          [("files", JVal.jobj [("myfile", .jbool true)]),
           ("packages", JVal.jobj [("requests", .jstr ">=2.31.0")])]) "packages"
      = some (JVal.jobj [("requests", .jstr ">=2.31.0")])
    ∧ configMergeResult
        ⟨false, "/venv", (fun _ => true),
          (fun _ => .parsed (.jobj [("files", JVal.jobj [("myfile", .jbool true)]),
            ("packages", JVal.jobj [("requests", .jstr ">=2.31.0")])])),
          true, true, true, some [], true, (fun _ _ _ => some true)⟩
        (default_config false)
        (.strArg "cfg.json")
      = .ok (some (dictUpdate (default_config false)
          [("files", JVal.jobj [("myfile", .jbool true)]),
           ("packages", JVal.jobj [("requests", .jstr ">=2.31.0")])])) := by
  have h := c6_shallow_merge
    ⟨false, "/venv", (fun _ => true),
      (fun _ => .parsed (.jobj [("files", JVal.jobj [("myfile", .jbool true)]),
        ("packages", JVal.jobj [("requests", .jstr ">=2.31.0")])])),
      true, true, true, some [], true, (fun _ _ _ => some true)⟩
    [("files", JVal.jobj [("myfile", .jbool true)]),
     ("packages", JVal.jobj [("requests", .jstr ">=2.31.0")])]
    (JVal.jobj [("myfile", .jbool true)]) (JVal.jobj [("requests", .jstr ">=2.31.0")])
    (by decide) rfl rfl
  exact ⟨h.1, h.2.1, h.2.2.1, h.2.2.2 "cfg.json" rfl rfl rfl⟩

/-- C4 witness: the amended theorem applied at the counterexample input
(a config path whose document is the JSON number `5`). -/
theorem c4_advisory_amended_witness :
    ∃ p, ConfigArg.strArg "cfg.json" = ConfigArg.strArg p ∧ p.isEmpty = false
      ∧ (fun (_ : String) => true) p = true
      ∧ ((∃ e, (fun (_ : String) => FileReadOutcome.parsed (.jnum 5)) p
            = FileReadOutcome.readRaised e)
         ∨ (∃ v, (fun (_ : String) => FileReadOutcome.parsed (.jnum 5)) p
              = FileReadOutcome.parsed v
              ∧ excIsOk (pyDictUpdate (default_config false) v) = false)) := by
  exact c4_advisory_amended
    ⟨false, "/venv", (fun _ => true), (fun _ => .parsed (.jnum 5)), true, true, true,
      some [], true, (fun _ _ _ => some true)⟩
    (.strArg "cfg.json") true rfl

end VenvPy
